import Mathlib

/-!
Verification of the agentdms-admin Django backend (shallow embedding).

This file embeds the authentication / authorization layer
(`authentication/services.py`, `authentication/serializers.py`,
`authentication/views.py`) and the project schema engine
(`projects/views.py`, `projects/models.py`) as executable Lean
definitions, and proves or refutes the specified properties about them.

Modelling conventions:
* Machine timestamps are `Nat` seconds since the epoch; `timedelta(hours=24)`
  is `86400` seconds.  Human-readable timestamp formatting
  (`strftime`) is abstracted to `toString` of the second count.
* A JWT is modelled structurally: the signature is represented by
  recording the signing key inside the token, and validation succeeds
  only when the validator presents the same key (HS256 symmetric
  signing).  A token whose key differs, or a byte-flipped token, is
  exactly a token that fails the signature check.
* Python `dict` payloads of user data are modelled by the structure
  `UserData` (the exact fields produced by `UserSerializer` /
  the hardcoded demo dictionaries); the four standard JWT claims
  (`iss`, `aud`, `exp`, `iat`) live in separate fields of `Token`,
  which models their addition by `payload.update` and their removal
  by the dict comprehension in `validate_token`.
* The bcrypt library is modelled by `BcryptLib`: the cryptographic
  digest is an abstract function parameter, while the documented
  control behaviour of `bcrypt.checkpw` — raising `ValueError`
  ("Invalid salt") on an input that does not parse as a bcrypt hash,
  and otherwise comparing the recomputed hash — is explicit.
  Exceptions are modelled with `Except String`.
* The relational store backing Django's ORM is the structure `Store`
  (projects and custom fields) resp. a `List DbUser` (credential
  store).  Django runs in autocommit mode here — the views use no
  `transaction.atomic` — so every `objects.create` call commits
  individually; an exception raised mid-loop therefore leaves the
  rows created so far in place.  Failure injection is modelled by an
  optional index `failAt`: the `failAt`-th `CustomField.objects.create`
  call raises, and control transfers to the view's `except` handler
  with the store as committed up to that point.
-/

deriving instance DecidableEq for Except

namespace AgentDms

/-- One entry of the `roles` list inside a serialized user payload
(`UserRoleSerializer` output / the hardcoded demo role dicts). -/
structure RoleClaim where
  id : String
  user_id : String
  role_id : String
  role_name : String
  created_at : String
deriving DecidableEq, Repr

/-- A serialized user payload: the fields of `UserSerializer`
(`id`, `username`, `email`, `is_immutable`, `roles`, `permissions`),
which is also the shape of the hardcoded demo-user dicts in
`authentication/views.py`. -/
structure UserData where
  id : String
  username : String
  email : String
  is_immutable : Bool
  roles : List RoleClaim
  permissions : List String
deriving DecidableEq, Repr

/-- A signed JWT as produced by `JwtService.generate_token`: the user
payload plus the standard claims added by `payload.update`, with the
HS256 signature modelled by recording the signing key. -/
structure Token where
  payload : UserData
  iss : String
  aud : String
  iat : Nat
  exp : Nat
  key : String
deriving DecidableEq, Repr

/-- Model of `JwtService.generate_token`: set `iss`/`aud` from settings,
`iat = now`, `exp = now + 24h`, and sign with the secret key. -/
def generate_token (user_data : UserData) (key iss aud : String) (now : Nat) : Token :=
  { payload := user_data
    iss := iss
    aud := aud
    iat := now
    exp := now + 86400
    key := key }

/-- Model of `JwtService.validate_token`: `jwt.decode` verifies the signature
with the secret key and checks audience, issuer and expiry (PyJWT
raises `ExpiredSignatureError` when `exp ≤ now`); any failure is
caught and turned into `None`.  On success the dict comprehension
strips `exp`/`iat`/`iss`/`aud`, leaving exactly the user payload. -/
def validate_token (t : Token) (key iss aud : String) (now : Nat) : Option UserData :=
  if t.key ≠ key then none
  else if t.aud ≠ aud then none
  else if t.iss ≠ iss then none
  else if t.exp ≤ now then none
  else some t.payload

/-! ### Password service (`PasswordService`, backed by the bcrypt library) -/

/-- Model of the bcrypt library.  The cryptographic digest is abstract:
`digest salt password` stands for the 31-character output of the
Blowfish-based key derivation for the given salt prefix. -/
structure BcryptLib where
  digest : String → String → String
deriving Inhabited

/-- Python `str.startswith`, written over the character list so that
it evaluates by kernel reduction. -/
def strStartsWith (s pre : String) : Bool :=
  s.data.take pre.data.length == pre.data

/-- Python string slicing `s[:n]`, written over the character list. -/
def strTake (s : String) (n : Nat) : String := ⟨s.data.take n⟩

/-- Whether a string parses as a bcrypt hash (`$2b$` version marker,
60 characters total); `bcrypt.checkpw` raises `ValueError` ("Invalid
salt") on anything else. -/
def wellFormedBcryptHash (h : String) : Bool :=
  strStartsWith h "$2b$" && h.data.length == 60

/-- The 29-character `$2b$<cost>$<22-char salt>` prefix of a hash. -/
def saltOf (h : String) : String := strTake h 29

/-- Model of `bcrypt.checkpw(password, hashed)`: on a malformed hash it raises
`ValueError` ("Invalid salt"); otherwise it recomputes the hash with
the embedded salt and compares. -/
def bcrypt_checkpw (bc : BcryptLib) (password hashed : String) : Except String Bool :=
  if wellFormedBcryptHash hashed then
    Except.ok (hashed == saltOf hashed ++ bc.digest (saltOf hashed) password)
  else
    Except.error "Invalid salt"

/-- Model of `PasswordService.verify_password`: UTF-8 encoding then a direct
call to `bcrypt.checkpw` — no exception handling of its own, so the
library's `ValueError` propagates to the caller. -/
def verify_password (bc : BcryptLib) (password hashed_password : String) :
    Except String Bool :=
  bcrypt_checkpw bc password hashed_password

/-! ### Credential store and `UserSerializer` -/

/-- A role row together with the permission names reachable through
its `role_permissions` link rows (`RolePermission.permission.name`). -/
structure Role where
  id : Nat
  name : String
  permission_names : List String
deriving DecidableEq, Repr

/-- A `UserRole` join row (with its prefetched role). -/
structure UserRoleRec where
  id : Nat
  role : Role
  created_at : String
deriving DecidableEq, Repr

/-- A `users.models.User` row with its prefetched role graph.
`password_hash = ""` models an empty/absent custom hash (falsy in
Python), which makes `login` fall back to Django's
`user.check_password`; that platform check is modelled by comparing
against the stored `django_password`. -/
structure DbUser where
  id : Nat
  username : String
  email : String
  is_immutable : Bool
  user_roles : List UserRoleRec
  password_hash : String
  django_password : String
deriving DecidableEq, Repr

/-- Python `set.add`: insert a string into a duplicate-free list,
keeping it unchanged when the element is already present. -/
def setAdd (s : List String) (x : String) : List String :=
  if x ∈ s then s else s ++ [x]

/-- Model of `UserSerializer.get_permissions`: start from an empty set, walk
every `user_role`, walk each role's `role_permissions`, and add each
`permission.name`; finally `list(...)`. -/
def get_permissions (u : DbUser) : List String :=
  u.user_roles.foldl
    (fun acc ur => ur.role.permission_names.foldl setAdd acc) []

/-- Model of `UserRoleSerializer` applied to one `UserRole` row. -/
def serializeRole (u : DbUser) (ur : UserRoleRec) : RoleClaim :=
  { id := toString ur.id
    user_id := toString u.id
    role_id := toString ur.role.id
    role_name := ur.role.name
    created_at := ur.created_at }

/-- Model of `UserSerializer(user).data`. -/
def serializeUser (u : DbUser) : UserData :=
  { id := toString u.id
    username := u.username
    email := u.email
    is_immutable := u.is_immutable
    roles := u.user_roles.map (serializeRole u)
    permissions := get_permissions u }

/-! ### HTTP responses and the login view (`authentication/views.py`) -/

/-- Response bodies of the modelled endpoints: a `{message: ...}` or
`{error: ...}` dict reduced to its string, a login success payload,
or a serialized project. -/
inductive Body where
  | message (m : String)
  | auth (token : Token) (user : UserData)
  | projectOut (id : Nat) (name : String) (description : Option String)
      (file_name : String)
deriving DecidableEq, Repr

/-- An HTTP response: status code and body. -/
structure Response where
  status : Nat
  body : Body
deriving DecidableEq, Repr

/-- Rendering of `strftime` timestamps, rendering, abstracted to the second count. -/
def formatTimestamp (now : Nat) : String := toString now

/-- The hardcoded `admin@agentdms.com` demo identity. -/
def adminDemoUser (now : Nat) : UserData :=
  { id := "1", username := "admin", email := "admin@agentdms.com"
    is_immutable := false
    roles := [{ id := "1", user_id := "1", role_id := "1"
                role_name := "Administrator", created_at := formatTimestamp now }]
    permissions := ["workspace.admin"] }

/-- The hardcoded `gill.dan2@gmail.com` demo identity. -/
def danDemoUser (now : Nat) : UserData :=
  { id := "2", username := "gill.dan2", email := "gill.dan2@gmail.com"
    is_immutable := false
    roles := [{ id := "2", user_id := "2", role_id := "2"
                role_name := "User", created_at := formatTimestamp now }]
    permissions := ["document.view"] }

/-- The hardcoded `superadmin@agentdms.com` identity. -/
def superadminDemoUser (now : Nat) : UserData :=
  { id := "0", username := "superadmin", email := "superadmin@agentdms.com"
    is_immutable := true
    roles := [{ id := "0", user_id := "0", role_id := "0"
                role_name := "Super Admin", created_at := formatTimestamp now }]
    permissions := ["workspace.admin", "document.view", "document.edit",
                    "document.delete", "document.print", "document.annotate"] }

/-- The demo-credential chain of `login` (the `elif` ladder over the
three hardcoded email/password pairs). -/
def demoLookup (now : Nat) (email password : String) : Option UserData :=
  if email == "admin@agentdms.com" && password == "admin123" then
    some (adminDemoUser now)
  else if email == "gill.dan2@gmail.com" && password == "admin123" then
    some (danDemoUser now)
  else if email == "superadmin@agentdms.com" && password == "sarasa123" then
    some (superadminDemoUser now)
  else none

/-- Model of `User.objects.get(email=email)` over the credential store
(emails are unique). -/
def findUser (db : List DbUser) (email : String) : Option DbUser :=
  db.find? (fun u => u.email == email)

/-- The password check inside `login`: the custom bcrypt hash when
`user.password_hash` is truthy, otherwise Django's
`user.check_password` (which never raises). -/
def check_password_db (bc : BcryptLib) (u : DbUser) (password : String) :
    Except String Bool :=
  if u.password_hash ≠ "" then
    verify_password bc password u.password_hash
  else
    Except.ok (password == u.django_password)

/-- The tail of `login` after database authentication has failed:
try the demo-credential ladder, otherwise build the 401 message
("Incorrect password"/"User not found" under `DEBUG`, the uniform
"Invalid email or password" otherwise). -/
def loginDemoOrFail (key iss aud : String) (now : Nat) (debug : Bool)
    (email password : String) (userFound : Bool) : Response :=
  match demoLookup now email password with
  | some du => ⟨200, Body.auth (generate_token du key iss aud now) du⟩
  | none =>
    let devMessage := if userFound then "Incorrect password" else "User not found"
    let message := if !debug then "Invalid email or password" else devMessage
    ⟨401, Body.message message⟩

/-- The `login` view: database authentication first (bcrypt or Django
password check; an exception from the check is caught by the outer
`except` and yields a 500), then the hardcoded demo credentials, then
the 401 failure response. -/
def login (bc : BcryptLib) (db : List DbUser) (key iss aud : String)
    (now : Nat) (debug : Bool) (email password : String) : Response :=
  match findUser db email with
  | some user =>
    match check_password_db bc user password with
    | Except.error _ =>
      ⟨500, Body.message "An error occurred during authentication"⟩
    | Except.ok true =>
      let user_data := serializeUser user
      ⟨200, Body.auth (generate_token user_data key iss aud now) user_data⟩
    | Except.ok false =>
      loginDemoOrFail key iss aud now debug email password true
  | none =>
    loginDemoOrFail key iss aud now debug email password false

/-! ### The `reset_password` view -/

/-- The `reset_password` view: it validates nothing against the store
and mutates nothing — a blank token or password is a 400, a token
with the `demo-reset-token-` prefix is answered 200 with a success
message, anything else 400 with the generic invalid-token message.
The credential store is returned unchanged in every branch. -/
def reset_password (db : List DbUser) (token new_password : String) :
    Response × List DbUser :=
  if token == "" || new_password == "" then
    (⟨400, Body.message "Invalid reset token or password"⟩, db)
  else if strStartsWith token "demo-reset-token-" then
    (⟨200, Body.message "Password has been reset successfully"⟩, db)
  else
    (⟨400, Body.message "Invalid or expired reset token"⟩, db)

/-! ### Project schema store (`projects/models.py`) -/

/-- A `projects.models.Project` row (audit fields elided). -/
structure Project where
  id : Nat
  name : String
  description : Option String
  file_name : String
  is_active : Bool
  is_archived : Bool
deriving DecidableEq, Repr

/-- The non-identity attributes of a `CustomField` — exactly the ten
columns copied by `clone_project`. -/
structure FieldAttrs where
  name : String
  description : Option String
  field_type : String
  is_required : Bool
  is_default : Bool
  default_value : Option String
  order : Int
  role_visibility : String
  user_list_options : Option String
  is_removable : Bool
deriving DecidableEq, Repr

/-- A `projects.models.CustomField` row. -/
structure CustomField where
  id : Nat
  attrs : FieldAttrs
  project_id : Nat
deriving DecidableEq, Repr

/-- The relational store for projects and custom fields.  `next_id`
models the autoincrement primary-key sequence (shared here across the
two tables for simplicity: every row gets a fresh id). -/
structure Store where
  projects : List Project
  fields : List CustomField
  next_id : Nat
deriving DecidableEq, Repr

/-- Store well-formedness: all committed ids are below the sequence
value, so freshly created rows collide with nothing. -/
def Store.WF (s : Store) : Prop :=
  (∀ p ∈ s.projects, p.id < s.next_id) ∧
  (∀ f ∈ s.fields, f.id < s.next_id ∧ f.project_id < s.next_id)

/-- Model of `Project.objects.get(id=...)` / `get_object_or_404`. -/
def Store.getProject (s : Store) (pid : Nat) : Option Project :=
  s.projects.find? (fun p => p.id == pid)

/-- Model of `project.custom_fields.all()`: the field rows belonging to a
project, in insertion (primary-key) order. -/
def Store.projectFields (s : Store) (pid : Nat) : List CustomField :=
  s.fields.filter (fun f => f.project_id == pid)

/-- Model of `Project.objects.create(...)` (autocommit: the row is durable as
soon as created).  Django defaults: `is_active=True`,
`is_archived=False`. -/
def Store.createProject (s : Store) (name : String) (description : Option String)
    (file_name : String) : Project × Store :=
  let p : Project :=
    { id := s.next_id, name := name, description := description
      file_name := file_name, is_active := true, is_archived := false }
  (p, { s with projects := s.projects ++ [p], next_id := s.next_id + 1 })

/-- Model of `CustomField.objects.create(project=..., ...)` (autocommit). -/
def Store.createField (s : Store) (pid : Nat) (a : FieldAttrs) : Store :=
  { s with
    fields := s.fields ++ [{ id := s.next_id, attrs := a, project_id := pid }]
    next_id := s.next_id + 1 }

/-- The `for ... CustomField.objects.create(...)` loop shared by
`create_project` (default-field seeding) and `clone_project` (field
duplication).  `failAt = some k` injects an exception into the `k`-th
create call; the loop then stops with `false` and the store as
committed so far — there is no surrounding transaction, so nothing is
rolled back. -/
def createFieldsLoop (s : Store) (pid : Nat) (attrsList : List FieldAttrs)
    (failAt : Option Nat) (idx : Nat) : Bool × Store :=
  match attrsList with
  | [] => (true, s)
  | a :: rest =>
    if failAt == some idx then (false, s)
    else createFieldsLoop (s.createField pid a) pid rest failAt (idx + 1)

/-- The three default fields seeded by `create_project`
(`Filename`/`Date Created`/`Date Modified`; unspecified columns take
the model defaults `description=None`, `default_value=None`,
`role_visibility='all'`, `user_list_options=None`). -/
def default_fields : List FieldAttrs :=
  [ { name := "Filename", description := none, field_type := "Text"
      is_required := true, is_default := true, default_value := none
      order := 0, role_visibility := "all", user_list_options := none
      is_removable := false },
    { name := "Date Created", description := none, field_type := "Date"
      is_required := true, is_default := true, default_value := none
      order := 1, role_visibility := "all", user_list_options := none
      is_removable := false },
    { name := "Date Modified", description := none, field_type := "Date"
      is_required := true, is_default := true, default_value := none
      order := 2, role_visibility := "all", user_list_options := none
      is_removable := false } ]

/-- The body of `create_project` after the permission check: save the
new project, then seed the three default fields one `create` at a
time.  An injected failure reaches the `except` handler (500) with
the project row and the already-seeded fields still committed. -/
def create_project_core (s : Store) (name : String) (description : Option String)
    (file_name : String) (failAt : Option Nat) : Response × Store :=
  let created := s.createProject name description file_name
  let run := createFieldsLoop created.2 created.1.id default_fields failAt 0
  if run.1 then
    (⟨201, Body.projectOut created.1.id created.1.name created.1.description
        created.1.file_name⟩, run.2)
  else
    (⟨500, Body.message "Error creating project"⟩, run.2)

/-- The body of `clone_project` after the permission check: look up
the source project (a missing id raises `Http404`, swallowed by the
`except` handler as a 500), create the `"<name> (Copy)"` project, then
copy every source field one `create` at a time.  An injected failure
reaches the `except` handler (500) with the cloned project row and
the already-copied fields still committed. -/
def clone_project_core (s : Store) (pid : Nat) (failAt : Option Nat) :
    Response × Store :=
  match s.getProject pid with
  | none => (⟨500, Body.message "Error cloning project"⟩, s)
  | some original =>
    let created := s.createProject (original.name ++ " (Copy)")
      original.description original.file_name
    let run := createFieldsLoop created.2 created.1.id
      ((s.projectFields pid).map CustomField.attrs) failAt 0
    if run.1 then
      (⟨201, Body.projectOut created.1.id created.1.name created.1.description
          created.1.file_name⟩, run.2)
    else
      (⟨500, Body.message "Error cloning project"⟩, run.2)

/-! ### Permission gate (`has_permission`) and the gated views -/

/-- The `Authorization` header of a request: absent (or not of the
`Bearer ` shape), or carrying a bearer token. -/
inductive AuthHeader where
  | absent
  | bearer (t : Token)
deriving DecidableEq, Repr

/-- Model of `projects.views.has_permission`: a `Bearer` token is extracted and
validated; the permission must occur in the validated payload's
`permissions` list.  Everything else — no header, failed validation —
is `False`. -/
def has_permission (h : AuthHeader) (key iss aud : String) (now : Nat)
    (permission_name : String) : Bool :=
  match h with
  | AuthHeader.absent => false
  | AuthHeader.bearer t =>
    match validate_token t key iss aud now with
    | some user_data => permission_name ∈ user_data.permissions
    | none => false

/-- The `create_project` view: `workspace.admin` gate, then the
creation body. -/
def create_project (h : AuthHeader) (key iss aud : String) (now : Nat)
    (s : Store) (name : String) (description : Option String)
    (file_name : String) (failAt : Option Nat) : Response × Store :=
  if !has_permission h key iss aud now "workspace.admin" then
    (⟨403, Body.message "Access denied. Insufficient permissions."⟩, s)
  else
    create_project_core s name description file_name failAt

/-- The `clone_project` view: `workspace.admin` gate, then the clone
body. -/
def clone_project (h : AuthHeader) (key iss aud : String) (now : Nat)
    (s : Store) (pid : Nat) (failAt : Option Nat) : Response × Store :=
  if !has_permission h key iss aud now "workspace.admin" then
    (⟨403, Body.message "Access denied. Insufficient permissions."⟩, s)
  else
    clone_project_core s pid failAt

/-! ### Concrete fixtures (used by witnesses and counterexamples) -/

/-- A sample serialized user payload. -/
def sampleUserData : UserData :=
  { id := "1", username := "admin", email := "admin@agentdms.com"
    is_immutable := false, roles := [], permissions := ["workspace.admin"] }

/-- A concrete instantiation of the abstract bcrypt digest. -/
def bcryptEx : BcryptLib := ⟨fun _ _ => ""⟩

/-- A string of the bcrypt hash shape (60 characters, `$2b$` marker). -/
def wellFormedHashEx : String :=
  "$2b$12$abcdefghijklmnopqrstuvABCDEFGHIJKLMNOPQRSTUVWXYZ01234"

/-- A database user on the legacy (Django) password path. -/
def bobUser : DbUser :=
  { id := 10, username := "bob", email := "bob@example.com"
    is_immutable := false, user_roles := [], password_hash := ""
    django_password := "s3cret" }

/-- A one-user credential store. -/
def sampleDb : List DbUser := [bobUser]

/-- A role granting view/print. -/
def viewerRole : Role := ⟨1, "Viewer", ["document.view", "document.print"]⟩

/-- A role granting view/edit (overlapping with `viewerRole`). -/
def editorRole : Role := ⟨2, "Editor", ["document.view", "document.edit"]⟩

/-- Alice's first role assignment. -/
def aliceViewer : UserRoleRec := ⟨1, viewerRole, "t0"⟩

/-- Alice's second role assignment. -/
def aliceEditor : UserRoleRec := ⟨2, editorRole, "t1"⟩

/-- A database user with two overlapping roles. -/
def aliceUser : DbUser :=
  { id := 7, username := "alice", email := "alice@example.com"
    is_immutable := false, user_roles := [aliceViewer, aliceEditor]
    password_hash := "", django_password := "pw" }

/-- A source custom field (a seeded default). -/
def srcFieldA : CustomField :=
  ⟨2, { name := "Filename", description := none, field_type := "Text"
        is_required := true, is_default := true, default_value := none
        order := 0, role_visibility := "all", user_list_options := none
        is_removable := false }, 1⟩

/-- A second source custom field (user-defined). -/
def srcFieldB : CustomField :=
  ⟨3, { name := "Amount", description := some "total", field_type := "Currency"
        is_required := false, is_default := false, default_value := some "0"
        order := 3, role_visibility := "1,2", user_list_options := none
        is_removable := true }, 1⟩

/-- A source project owning the two fields above. -/
def srcProject : Project := ⟨1, "Alpha", some "docs", "F", true, false⟩

/-- A store holding the source project and its two fields. -/
def storeEx : Store := ⟨[srcProject], [srcFieldA, srcFieldB], 10⟩

/-- The empty store. -/
def emptyStore : Store := ⟨[], [], 0⟩

/-- A token for the demo admin identity, signed at time 0 with key
`"k"`, issuer `"i"`, audience `"a"`. -/
def adminToken : Token := generate_token (adminDemoUser 0) "k" "i" "a" 0

/-- An `Authorization: Bearer` header carrying `adminToken`. -/
def adminHeader : AuthHeader := AuthHeader.bearer adminToken

/-! ### C1: token round-trip with expiry -/

/-- C1: validating a token issued from an identity-and-permissions
payload with the same signing key, issuer and audience returns exactly
the issued payload (the standard `exp`/`iat`/`iss`/`aud` claims are
stripped by `validate_token`) whenever validation happens before the
expiry instant `iat + 24h`; strictly after that instant validation
returns the expired sentinel `none`, never the claims. -/
theorem token_round_trip_with_expiry (u : UserData) (key iss aud : String)
    (iat now : Nat) :
    (now < iat + 86400 →
      validate_token (generate_token u key iss aud iat) key iss aud now = some u) ∧
    (iat + 86400 < now →
      validate_token (generate_token u key iss aud iat) key iss aud now = none) := by
  constructor
  · intro hlt
    simp [validate_token, generate_token, Nat.not_le.mpr hlt]
  · intro hgt
    simp [validate_token, generate_token, Nat.le_of_lt hgt]

/-- Witness for C1 at a concrete payload, key and times. -/
theorem token_round_trip_with_expiry_witness :
    (1000 < 0 + 86400 ∧
      validate_token (generate_token sampleUserData "k" "i" "a" 0) "k" "i" "a" 1000 =
        some sampleUserData) ∧
    (0 + 86400 < 90000 ∧
      validate_token (generate_token sampleUserData "k" "i" "a" 0) "k" "i" "a" 90000 =
        none) :=
  ⟨⟨by decide,
    (token_round_trip_with_expiry sampleUserData "k" "i" "a" 0 1000).1 (by decide)⟩,
   ⟨by decide,
    (token_round_trip_with_expiry sampleUserData "k" "i" "a" 0 90000).2 (by decide)⟩⟩

/-! ### C8: password verification totality -/

/-- C8 counterexample: on a malformed hash string,
`PasswordService.verify_password` does not return `false` — the
bcrypt library raises `ValueError` ("Invalid salt") and
`verify_password` propagates it. -/
theorem verify_password_malformed_raises :
    verify_password bcryptEx "pw" "not-a-bcrypt-hash" = Except.error "Invalid salt" ∧
    verify_password bcryptEx "pw" "not-a-bcrypt-hash" ≠ Except.ok false := by
  constructor
  · rfl
  · intro h
    simp [verify_password, bcrypt_checkpw, wellFormedBcryptHash] at h

/-- C8 amended: for every password and hash string, `verify_password`
returns a boolean when the hash string is a well-formed bcrypt hash,
and raises `ValueError` ("Invalid salt", propagated uncaught) when it
is malformed — it does not return `false` on malformed input. -/
theorem verify_password_totality_amended (bc : BcryptLib) (password h : String) :
    (wellFormedBcryptHash h = false →
      verify_password bc password h = Except.error "Invalid salt") ∧
    (wellFormedBcryptHash h = true →
      ∃ b : Bool, verify_password bc password h = Except.ok b) := by
  constructor
  · intro hw
    simp [verify_password, bcrypt_checkpw, hw]
  · intro hw
    refine ⟨h == saltOf h ++ bc.digest (saltOf h) password, ?_⟩
    simp [verify_password, bcrypt_checkpw, hw]

/-- Witness for the amended C8 at a concrete malformed and a concrete
well-formed hash string. -/
theorem verify_password_totality_amended_witness :
    (wellFormedBcryptHash "xyz" = false ∧
      verify_password bcryptEx "pw" "xyz" = Except.error "Invalid salt") ∧
    (wellFormedBcryptHash wellFormedHashEx = true ∧
      ∃ b : Bool, verify_password bcryptEx "pw" wellFormedHashEx = Except.ok b) :=
  ⟨⟨by decide,
    (verify_password_totality_amended bcryptEx "pw" "xyz").1 (by decide)⟩,
   ⟨by decide,
    (verify_password_totality_amended bcryptEx "pw" wellFormedHashEx).2 (by decide)⟩⟩

/-! ### C9: reset completion effect -/

/-- C9 counterexample: a reset request the system accepts as
successful (a `demo-reset-token-` token, answered 200) changes no
state — no password hash is stored — and the very same token is
accepted again on a second use, so the token is not invalidated. -/
theorem reset_password_no_effect_counterexample :
    (reset_password sampleDb "demo-reset-token-1" "newpw").2 = sampleDb ∧
    (reset_password sampleDb "demo-reset-token-1" "newpw").1.status = 200 ∧
    (reset_password
        (reset_password sampleDb "demo-reset-token-1" "newpw").2
        "demo-reset-token-1" "newpw").1.status = 200 := by
  decide

/-- C9 amended: `reset_password` is a stub: it never touches the
credential store.  A non-blank token with the `demo-reset-token-`
prefix is answered 200 with a success message (and stays reusable —
no state changes, no hash is stored, the token is not invalidated);
any other non-blank token is answered with the generic 400
invalid-token message; a blank token or password is a 400. -/
theorem reset_password_stub_behavior (db : List DbUser) (token new_password : String) :
    (reset_password db token new_password).2 = db ∧
    ((token == "" || new_password == "") = false →
      strStartsWith token "demo-reset-token-" = true →
      (reset_password db token new_password).1 =
        ⟨200, Body.message "Password has been reset successfully"⟩) ∧
    ((token == "" || new_password == "") = false →
      strStartsWith token "demo-reset-token-" = false →
      (reset_password db token new_password).1 =
        ⟨400, Body.message "Invalid or expired reset token"⟩) ∧
    ((token == "" || new_password == "") = true →
      (reset_password db token new_password).1 =
        ⟨400, Body.message "Invalid reset token or password"⟩) := by
  refine ⟨?_, ?_, ?_, ?_⟩
  · unfold reset_password
    split
    · rfl
    · split <;> rfl
  · intro h1 h2
    simp [reset_password, h1, h2]
  · intro h1 h2
    simp [reset_password, h1, h2]
  · intro h1
    simp [reset_password, h1]

/-- Witness for the amended C9 at concrete stores and tokens. -/
theorem reset_password_stub_behavior_witness :
    (reset_password sampleDb "demo-reset-token-2" "npw").2 = sampleDb ∧
    (("demo-reset-token-2" == "" || "npw" == "") = false ∧
      strStartsWith "demo-reset-token-2" "demo-reset-token-" = true ∧
      (reset_password sampleDb "demo-reset-token-2" "npw").1 =
        ⟨200, Body.message "Password has been reset successfully"⟩) ∧
    (("bogus" == "" || "npw" == "") = false ∧
      strStartsWith "bogus" "demo-reset-token-" = false ∧
      (reset_password sampleDb "bogus" "npw").1 =
        ⟨400, Body.message "Invalid or expired reset token"⟩) :=
  ⟨(reset_password_stub_behavior sampleDb "demo-reset-token-2" "npw").1,
   ⟨by decide, by decide,
    (reset_password_stub_behavior sampleDb "demo-reset-token-2" "npw").2.1
      (by decide) (by decide)⟩,
   ⟨by decide, by decide,
    (reset_password_stub_behavior sampleDb "bogus" "npw").2.2.1
      (by decide) (by decide)⟩⟩

/-! ### C10: hardcoded superadmin credential -/

/-- C10: whenever database authentication does not succeed for
`superadmin@agentdms.com` / `sarasa123` (the user is absent, or the
password check returns false), `login` — in any configuration —
answers 200 and issues a signed token whose identity has
`is_immutable = true` and whose permission list is exactly the
maximal hardcoded grant. -/
theorem hardcoded_superadmin_login (bc : BcryptLib) (db : List DbUser)
    (key iss aud : String) (now : Nat) (debug : Bool)
    (hfail : ∀ u, findUser db "superadmin@agentdms.com" = some u →
      check_password_db bc u "sarasa123" = Except.ok false) :
    login bc db key iss aud now debug "superadmin@agentdms.com" "sarasa123" =
      ⟨200, Body.auth (generate_token (superadminDemoUser now) key iss aud now)
        (superadminDemoUser now)⟩ ∧
    (superadminDemoUser now).is_immutable = true ∧
    (superadminDemoUser now).permissions =
      ["workspace.admin", "document.view", "document.edit",
       "document.delete", "document.print", "document.annotate"] := by
  refine ⟨?_, rfl, rfl⟩
  have hdemo : demoLookup now "superadmin@agentdms.com" "sarasa123" =
      some (superadminDemoUser now) := rfl
  rcases hfind : findUser db "superadmin@agentdms.com" with _ | u
  · simp only [login, hfind, loginDemoOrFail, hdemo]
  · simp only [login, hfind, hfail u hfind, loginDemoOrFail, hdemo]

/-- Witness for C10: superadmin login against a store that does not
contain the superadmin email. -/
theorem hardcoded_superadmin_login_witness :
    login bcryptEx sampleDb "k" "i" "a" 5 true "superadmin@agentdms.com" "sarasa123" =
      ⟨200, Body.auth (generate_token (superadminDemoUser 5) "k" "i" "a" 5)
        (superadminDemoUser 5)⟩ ∧
    (superadminDemoUser 5).is_immutable = true ∧
    (superadminDemoUser 5).permissions =
      ["workspace.admin", "document.view", "document.edit",
       "document.delete", "document.print", "document.annotate"] :=
  hardcoded_superadmin_login bcryptEx sampleDb "k" "i" "a" 5 true
    (fun u hu => by simp [findUser, sampleDb, bobUser] at hu)

/-! ### C7: login anti-enumeration -/

/-- C7: with `DEBUG` disabled, a failing login for an email belonging
to no user and a failing login for an existing user's email with a
wrong password (neither matching the hardcoded demo credentials)
produce the identical response: 401 with the uniform message
"Invalid email or password". -/
theorem login_anti_enumeration (bc : BcryptLib) (db : List DbUser)
    (key iss aud : String) (now : Nat) (e1 p1 e2 p2 : String) (u : DbUser)
    (h1 : findUser db e1 = none)
    (hd1 : demoLookup now e1 p1 = none)
    (h2 : findUser db e2 = some u)
    (hver : check_password_db bc u p2 = Except.ok false)
    (hd2 : demoLookup now e2 p2 = none) :
    login bc db key iss aud now false e1 p1 =
      login bc db key iss aud now false e2 p2 ∧
    login bc db key iss aud now false e1 p1 =
      ⟨401, Body.message "Invalid email or password"⟩ := by
  have L1 : login bc db key iss aud now false e1 p1 =
      ⟨401, Body.message "Invalid email or password"⟩ := by
    simp only [login, h1, loginDemoOrFail, hd1]
    rfl
  have L2 : login bc db key iss aud now false e2 p2 =
      ⟨401, Body.message "Invalid email or password"⟩ := by
    simp only [login, h2, hver, loginDemoOrFail, hd2]
    rfl
  exact ⟨L1.trans L2.symm, L1⟩

/-- Witness for C7: unknown email vs. Bob's email with a wrong
password, against the one-user store. -/
theorem login_anti_enumeration_witness :
    findUser sampleDb "nobody@example.com" = none ∧
    demoLookup 0 "nobody@example.com" "x" = none ∧
    findUser sampleDb "bob@example.com" = some bobUser ∧
    check_password_db bcryptEx bobUser "wrong" = Except.ok false ∧
    demoLookup 0 "bob@example.com" "wrong" = none ∧
    login bcryptEx sampleDb "k" "i" "a" 0 false "nobody@example.com" "x" =
      login bcryptEx sampleDb "k" "i" "a" 0 false "bob@example.com" "wrong" ∧
    login bcryptEx sampleDb "k" "i" "a" 0 false "nobody@example.com" "x" =
      ⟨401, Body.message "Invalid email or password"⟩ := by
  refine ⟨by decide, by decide, by decide, by decide, by decide, ?_⟩
  exact login_anti_enumeration bcryptEx sampleDb "k" "i" "a" 0
    "nobody@example.com" "x" "bob@example.com" "wrong" bobUser
    (by decide) (by decide) (by decide) (by decide) (by decide)

/-! ### C5: permission gate on clone and create -/

/-- C5: for any request whose bearer token is absent, fails
validation, or validates to a payload whose permission list lacks
`workspace.admin` — in particular the anonymous/demo fallback, which
presents no valid signed token — both `clone_project` and
`create_project` answer 403 Forbidden and leave the store unchanged. -/
theorem permission_gate_on_clone_and_create (h : AuthHeader)
    (key iss aud : String) (now : Nat) (s : Store) (pid : Nat)
    (failAt : Option Nat) (name : String) (description : Option String)
    (file_name : String)
    (hno : h = AuthHeader.absent ∨ ∃ t, h = AuthHeader.bearer t ∧
      ∀ u, validate_token t key iss aud now = some u →
        "workspace.admin" ∉ u.permissions) :
    clone_project h key iss aud now s pid failAt =
      (⟨403, Body.message "Access denied. Insufficient permissions."⟩, s) ∧
    create_project h key iss aud now s name description file_name failAt =
      (⟨403, Body.message "Access denied. Insufficient permissions."⟩, s) := by
  have hp : has_permission h key iss aud now "workspace.admin" = false := by
    rcases hno with rfl | ⟨t, rfl, ht⟩
    · rfl
    · cases hv : validate_token t key iss aud now with
      | none => simp [has_permission, hv]
      | some u =>
        have hnot := ht u hv
        simp [has_permission, hv, decide_eq_false_iff_not, hnot]
  exact ⟨by simp [clone_project, hp], by simp [create_project, hp]⟩

/-- Witness for C5: an unauthenticated request (no bearer token) is
refused by both views and the store is untouched. -/
theorem permission_gate_on_clone_and_create_witness :
    clone_project AuthHeader.absent "k" "i" "a" 0 storeEx 1 none =
      (⟨403, Body.message "Access denied. Insufficient permissions."⟩, storeEx) ∧
    create_project AuthHeader.absent "k" "i" "a" 0 storeEx "P" none "F" none =
      (⟨403, Body.message "Access denied. Insufficient permissions."⟩, storeEx) :=
  permission_gate_on_clone_and_create AuthHeader.absent "k" "i" "a" 0 storeEx 1
    none "P" none "F" (Or.inl rfl)

/-! ### C6: permission aggregation -/

/-- Membership after a Python-set insertion. -/
theorem mem_setAdd {acc : List String} {a x : String} :
    x ∈ setAdd acc a ↔ x ∈ acc ∨ x = a := by
  unfold setAdd
  by_cases h : a ∈ acc
  · simp only [if_pos h]
    constructor
    · exact Or.inl
    · rintro (hx | rfl)
      · exact hx
      · exact h
  · simp [if_neg h]

/-- Membership after folding a whole permission-name list into the
set. -/
theorem mem_foldl_setAdd (l acc : List String) (x : String) :
    x ∈ l.foldl setAdd acc ↔ x ∈ acc ∨ x ∈ l := by
  induction l generalizing acc with
  | nil => simp
  | cons a t ih =>
    rw [List.foldl_cons, ih, mem_setAdd]
    simp [List.mem_cons, or_assoc]

/-- Membership after the double fold of
`UserSerializer.get_permissions`. -/
theorem mem_roleFold (rs : List UserRoleRec) (acc : List String) (x : String) :
    x ∈ rs.foldl (fun acc ur => ur.role.permission_names.foldl setAdd acc) acc ↔
      x ∈ acc ∨ ∃ ur ∈ rs, x ∈ ur.role.permission_names := by
  induction rs generalizing acc with
  | nil => simp
  | cons r t ih =>
    rw [List.foldl_cons, ih, mem_foldl_setAdd]
    simp [List.exists_mem_cons_iff, or_assoc]

/-- The function `setAdd` preserves duplicate-freedom. -/
theorem nodup_setAdd {acc : List String} (h : acc.Nodup) (a : String) :
    (setAdd acc a).Nodup := by
  unfold setAdd
  by_cases ha : a ∈ acc
  · simpa [if_pos ha] using h
  · rw [if_neg ha, ← List.concat_eq_append]
    exact h.concat ha

/-- Folding a permission-name list preserves duplicate-freedom. -/
theorem nodup_foldl_setAdd (l : List String) (acc : List String) (h : acc.Nodup) :
    (l.foldl setAdd acc).Nodup := by
  induction l generalizing acc with
  | nil => exact h
  | cons a t ih => exact ih _ (nodup_setAdd h a)

/-- The double fold preserves duplicate-freedom. -/
theorem nodup_roleFold (rs : List UserRoleRec) (acc : List String) (h : acc.Nodup) :
    (rs.foldl (fun acc ur => ur.role.permission_names.foldl setAdd acc) acc).Nodup := by
  induction rs generalizing acc with
  | nil => exact h
  | cons r t ih => exact ih _ (nodup_foldl_setAdd _ _ h)

/-- Membership in the set-union of role permission sets. -/
theorem mem_foldr_union (rs : List UserRoleRec) (x : String) :
    x ∈ rs.foldr (fun ur acc => ur.role.permission_names.toFinset ∪ acc) ∅ ↔
      ∃ ur ∈ rs, x ∈ ur.role.permission_names := by
  induction rs with
  | nil => simp
  | cons r t ih => simp [ih, List.exists_mem_cons_iff]

/-- C6: the permission list embedded in a user's serialized claims
is, as a set, exactly the union over every `UserRole` of the
permission names granted through that role's `RolePermission` rows;
it contains no duplicates, is empty when the user has no roles, and
is the same set for any traversal order of the roles. -/
theorem permission_aggregation (u : DbUser) :
    ((serializeUser u).permissions).toFinset =
      u.user_roles.foldr (fun ur acc => ur.role.permission_names.toFinset ∪ acc) ∅ ∧
    ((serializeUser u).permissions).Nodup ∧
    (u.user_roles = [] → (serializeUser u).permissions = []) ∧
    (∀ l : List UserRoleRec, l.Perm u.user_roles →
      (get_permissions { u with user_roles := l }).toFinset =
        ((serializeUser u).permissions).toFinset) := by
  have hmem : ∀ (rs : List UserRoleRec) (x : String),
      x ∈ rs.foldl (fun acc ur => ur.role.permission_names.foldl setAdd acc) [] ↔
        ∃ ur ∈ rs, x ∈ ur.role.permission_names := by
    intro rs x
    rw [mem_roleFold]
    simp
  refine ⟨?_, ?_, ?_, ?_⟩
  · ext x
    rw [List.mem_toFinset, mem_foldr_union]
    exact hmem u.user_roles x
  · exact nodup_roleFold u.user_roles [] List.nodup_nil
  · intro h
    show get_permissions u = []
    unfold get_permissions
    rw [h]
    rfl
  · intro l hl
    ext x
    rw [List.mem_toFinset, List.mem_toFinset]
    constructor
    · intro hx
      obtain ⟨ur, hur, hx2⟩ := (hmem l x).mp hx
      exact (hmem u.user_roles x).mpr ⟨ur, hl.subset hur, hx2⟩
    · intro hx
      obtain ⟨ur, hur, hx2⟩ := (hmem u.user_roles x).mp hx
      exact (hmem l x).mpr ⟨ur, hl.symm.subset hur, hx2⟩

/-- Witness for C6: Alice's two overlapping roles, traversed in both
orders, give the same deduplicated permission set. -/
theorem permission_aggregation_witness :
    [aliceEditor, aliceViewer].Perm aliceUser.user_roles ∧
    (get_permissions { aliceUser with user_roles := [aliceEditor, aliceViewer] }).toFinset =
      ((serializeUser aliceUser).permissions).toFinset :=
  ⟨by decide,
   (permission_aggregation aliceUser).2.2.2 [aliceEditor, aliceViewer] (by decide)⟩

/-! ### C2: clone correctness -/

/-- The field-creation loop never touches the projects table. -/
theorem createFieldsLoop_projects (pid : Nat) (al : List FieldAttrs)
    (failAt : Option Nat) :
    ∀ (s : Store) (idx : Nat),
      ((createFieldsLoop s pid al failAt idx).2).projects = s.projects := by
  induction al with
  | nil => intro s idx; rfl
  | cons a t ih =>
    intro s idx
    unfold createFieldsLoop
    by_cases hf : (failAt == some idx) = true
    · rw [if_pos hf]
    · rw [if_neg hf]
      exact ih (s.createField pid a) (idx + 1)

/-- Without injected failure, the field-creation loop succeeds and
appends one fresh row per attribute record, in order, all owned by
the target project. -/
theorem createFieldsLoop_none_spec (pid : Nat) (al : List FieldAttrs) :
    ∀ (s : Store) (idx : Nat),
      (createFieldsLoop s pid al none idx).1 = true ∧
      ∃ news : List CustomField,
        (createFieldsLoop s pid al none idx).2.fields = s.fields ++ news ∧
        news.map CustomField.attrs = al ∧
        ∀ f ∈ news, f.project_id = pid := by
  induction al with
  | nil =>
    intro s idx
    exact ⟨rfl, [], by show s.fields = s.fields ++ []; rw [List.append_nil], rfl, by simp⟩
  | cons a t ih =>
    intro s idx
    have hstep : createFieldsLoop s pid (a :: t) none idx =
        createFieldsLoop (s.createField pid a) pid t none (idx + 1) := rfl
    obtain ⟨hok, news, hfields, hattrs, hpids⟩ := ih (s.createField pid a) (idx + 1)
    rw [hstep]
    refine ⟨hok, ⟨s.next_id, a, pid⟩ :: news, ?_, ?_, ?_⟩
    · rw [hfields]
      simp [Store.createField]
    · simp [hattrs]
    · intro f hf
      rcases List.mem_cons.mp hf with rfl | hf2
      · rfl
      · exact hpids f hf2

/-- C2: when the `workspace.admin` gate passes and the source project
exists in a well-formed store, `clone_project` answers 201 with a new
project whose name is the source name plus `" (Copy)"` and whose
description and file-name template are the source's; the clone owns
exactly as many custom fields as the source, and corresponding fields
agree on all ten copied attributes (name, description, field type,
required/default flags, default value, order, role visibility,
user-list options, removability). -/
theorem clone_correctness (h : AuthHeader) (key iss aud : String) (now : Nat)
    (s : Store) (pid : Nat)
    (hperm : has_permission h key iss aud now "workspace.admin" = true)
    (hwf : s.WF) (original : Project)
    (hfind : s.getProject pid = some original) :
    ∃ (s' : Store) (cloned : Project),
      clone_project h key iss aud now s pid none =
        (⟨201, Body.projectOut cloned.id cloned.name cloned.description
            cloned.file_name⟩, s') ∧
      cloned.name = original.name ++ " (Copy)" ∧
      cloned.description = original.description ∧
      cloned.file_name = original.file_name ∧
      cloned ∈ s'.projects ∧
      (s'.projectFields cloned.id).map CustomField.attrs =
        (s.projectFields pid).map CustomField.attrs ∧
      (s'.projectFields cloned.id).length = (s.projectFields pid).length := by
  have hgate : clone_project h key iss aud now s pid none =
      clone_project_core s pid none := by
    simp [clone_project, hperm]
  set cloned : Project :=
    { id := s.next_id, name := original.name ++ " (Copy)"
      description := original.description, file_name := original.file_name
      is_active := true, is_archived := false } with hcloned
  set s1 : Store :=
    { s with projects := s.projects ++ [cloned], next_id := s.next_id + 1 } with hs1
  set al : List FieldAttrs := (s.projectFields pid).map CustomField.attrs with hal
  obtain ⟨hok, news, hfields, hattrs, hpids⟩ := createFieldsLoop_none_spec s.next_id al s1 0
  set s2 : Store := (createFieldsLoop s1 s.next_id al none 0).2 with hs2
  have hcore : clone_project_core s pid none =
      (⟨201, Body.projectOut cloned.id cloned.name cloned.description
          cloned.file_name⟩, s2) := by
    unfold clone_project_core
    rw [hfind]
    show (if (createFieldsLoop s1 s.next_id al none 0).1 = true then _ else _) = _
    rw [hok]
    rfl
  have hfilter : s2.projectFields s.next_id = news := by
    show (s2.fields).filter (fun f => f.project_id == s.next_id) = news
    have : s2.fields = s.fields ++ news := hfields
    rw [this, List.filter_append]
    have hleft : (s.fields).filter (fun f => f.project_id == s.next_id) = [] := by
      rw [List.filter_eq_nil_iff]
      intro f hf
      have := (hwf.2 f hf).2
      simp only [beq_iff_eq]
      omega
    have hright : news.filter (fun f => f.project_id == s.next_id) = news := by
      rw [List.filter_eq_self]
      intro f hf
      simp only [beq_iff_eq]
      exact hpids f hf
    rw [hleft, hright, List.nil_append]
  refine ⟨s2, cloned, hgate.trans hcore, rfl, rfl, rfl, ?_, ?_, ?_⟩
  · have hproj : s2.projects = s1.projects := createFieldsLoop_projects s.next_id al none s1 0
    rw [hproj]
    simp [hs1]
  · show (s2.projectFields cloned.id).map CustomField.attrs = al
    rw [show cloned.id = s.next_id from rfl, hfilter, hattrs]
  · have hmap : (s2.projectFields cloned.id).map CustomField.attrs = al := by
      rw [show cloned.id = s.next_id from rfl, hfilter, hattrs]
    have := congrArg List.length hmap
    simpa [hal, List.length_map] using this

/-- Witness for C2: cloning the two-field project `Alpha` with a
valid admin bearer token. -/
theorem clone_correctness_witness :
    has_permission adminHeader "k" "i" "a" 0 "workspace.admin" = true ∧
    storeEx.WF ∧
    storeEx.getProject 1 = some srcProject ∧
    ∃ (s' : Store) (cloned : Project),
      clone_project adminHeader "k" "i" "a" 0 storeEx 1 none =
        (⟨201, Body.projectOut cloned.id cloned.name cloned.description
            cloned.file_name⟩, s') ∧
      cloned.name = srcProject.name ++ " (Copy)" ∧
      cloned.description = srcProject.description ∧
      cloned.file_name = srcProject.file_name ∧
      cloned ∈ s'.projects ∧
      (s'.projectFields cloned.id).map CustomField.attrs =
        (storeEx.projectFields 1).map CustomField.attrs ∧
      (s'.projectFields cloned.id).length = (storeEx.projectFields 1).length :=
  ⟨by decide, ⟨by decide, by decide⟩, by decide,
   clone_correctness adminHeader "k" "i" "a" 0 storeEx 1 (by decide)
     ⟨by decide, by decide⟩ srcProject (by decide)⟩

/-! ### C3: clone atomicity (violated by the code) -/

/-- C3 evaluation: cloning project `Alpha` (two fields) with a valid
admin token and a failure injected into the second
`CustomField.objects.create` call answers 500 — yet the store keeps a
new project row owning exactly one copied field, because every create
auto-committed and nothing was rolled back.  The clone is therefore
not all-or-nothing. -/
theorem clone_not_atomic_eval :
    (clone_project adminHeader "k" "i" "a" 0 storeEx 1 (some 1)).1.status = 500 ∧
    (clone_project adminHeader "k" "i" "a" 0 storeEx 1 (some 1)).2.projects.length =
      storeEx.projects.length + 1 ∧
    ((clone_project adminHeader "k" "i" "a" 0 storeEx 1 (some 1)).2.projectFields 10).length = 1 ∧
    (storeEx.projectFields 1).length = 2 ∧
    (clone_project adminHeader "k" "i" "a" 0 storeEx 1 (some 1)).2 ≠ storeEx := by
  decide

/-! ### C4: default-field seeding (rollback clause violated by the code) -/

/-- C4 evaluation: on success, `create_project` seeds exactly the
three default fields `Filename`/`Date Created`/`Date Modified` with
orders 0, 1, 2, each required, default and non-removable; but with a
failure injected into the second seeding create, the project row and
the already-seeded `Filename` field stay committed while the view
answers 500 — seeding failure does not roll back the project
creation. -/
theorem default_field_seeding_eval :
    (create_project adminHeader "k" "i" "a" 0 emptyStore "P" (some "d") "F" none).1.status = 201 ∧
    ((create_project adminHeader "k" "i" "a" 0 emptyStore "P" (some "d") "F" none).2.projectFields 0).map
        CustomField.attrs = default_fields ∧
    ((create_project adminHeader "k" "i" "a" 0 emptyStore "P" (some "d") "F" none).2.projectFields 0).map
        (fun f => (f.attrs.name, f.attrs.order, f.attrs.is_required,
                   f.attrs.is_default, f.attrs.is_removable)) =
      [("Filename", 0, true, true, false),
       ("Date Created", 1, true, true, false),
       ("Date Modified", 2, true, true, false)] ∧
    (create_project adminHeader "k" "i" "a" 0 emptyStore "P" (some "d") "F" (some 1)).1.status = 500 ∧
    (create_project adminHeader "k" "i" "a" 0 emptyStore "P" (some "d") "F" (some 1)).2.projects.length = 1 ∧
    ((create_project adminHeader "k" "i" "a" 0 emptyStore "P" (some "d") "F" (some 1)).2.projectFields 0).map
        (fun f => f.attrs.name) = ["Filename"] := by
  decide

end AgentDms
